import Mathlib

/-!
Verification development for the fwts status-dashboard core:
a shallow embedding of `src/fwts/hooks.py` (probe execution) and
`src/fwts/tui.py` (dashboard state machine, data loading, cleanup
protocol), with theorems settling the behavioural claims about them.

External effects (process execution, the terminal, the GitHub/Linear
adapters, the filesystem) are modelled as explicit oracle arguments;
everything else is translated line by line from the Python source.
-/

/-! ## String helpers (Python `str` operations used by the source) -/

/-- `startsWithList needle hay` is Python-style list prefix test. -/
def startsWithList {α : Type} [DecidableEq α] : List α → List α → Bool
  | [], _ => true
  | _ :: _, [] => false
  | a :: as, b :: bs => a == b && startsWithList as bs

/-- `containsList needle hay`: does `needle` occur contiguously inside `hay`?
This is Python's `needle in hay` on strings, at the char-list level. -/
def containsList {α : Type} [DecidableEq α] (needle : List α) : List α → Bool
  | [] => needle.isEmpty
  | c :: rest => startsWithList needle (c :: rest) || containsList needle rest

/-- Python `needle in hay` substring test. -/
def containsStr (hay needle : String) : Bool :=
  containsList needle.toList hay.toList

/-- The ASCII whitespace set Python's `str.strip()` removes. -/
def isPySpace (c : Char) : Bool :=
  c == ' ' || c == '\t' || c == '\n' || c == '\r' || c == '\x0b' || c == '\x0c'

/-- Python `s.strip()`: drop leading and trailing whitespace. -/
def pyStrip (s : String) : String :=
  ⟨((s.toList.dropWhile isPySpace).reverse.dropWhile isPySpace).reverse⟩

/-- Python `s.lower()` (ASCII case folding, as the source's inputs use). -/
def pyLower (s : String) : String :=
  ⟨s.toList.map Char.toLower⟩

/-! ## Embedding of `src/fwts/hooks.py` -/

/-- `fwts.config.ColumnHook`: a probe definition.  `color_map` is a Python
dict, modelled as an insertion-ordered association list with distinct keys. -/
structure ColumnHook where
  name : String
  hook : String
  color_map : List (String × String)
deriving DecidableEq, Repr

/-- `fwts.git.Worktree` (the fields `hooks.py`/`tui.py` read). -/
structure Worktree where
  path : String
  branch : String
  is_bare : Bool
deriving DecidableEq, Repr

/-- `fwts.hooks.HookResult`. -/
structure HookResult where
  worktree_path : String
  column_name : String
  value : String
  color : Option String
deriving DecidableEq, Repr

/-- Python `dict.get` on the association-list model of a dict. -/
def dictGet (d : List (String × String)) (k : String) : Option String :=
  (d.find? (fun p => p.1 == k)).map Prod.snd

/-- Colour resolution from `run_hook` (hooks.py lines 77-84):
`color = hook.color_map.get(output.lower())`, then — because Python's
`if not color:` treats both `None` and `""` as missing — a partial-match
pass over the dict in registration order, `key.lower() in output.lower()`. -/
def resolveColor (color_map : List (String × String)) (output : String) : Option String :=
  let color := dictGet color_map (pyLower output)
  if color = none ∨ color = some "" then
    match color_map.find? (fun kv => containsStr (pyLower output) (pyLower kv.1)) with
    | some kv => some kv.2
    | none => color
  else
    color

/-- How one execution of the probe's shell command ends. -/
inductive ExecOutcome where
  /-- the process ran to completion and produced this stdout -/
  | completed (stdout : String)
  /-- `asyncio.TimeoutError` was raised -/
  | timeoutError
  /-- any other exception was raised -/
  | execError
deriving DecidableEq, Repr

/-- The observable behaviour of running the probe's command once:
how many time-units until `anyio.run_process` returns (or raises), and how. -/
structure ProcBehavior where
  duration : Nat
  outcome : ExecOutcome
deriving DecidableEq, Repr

/-- `fwts.hooks.run_hook` (hooks.py lines 28-91), as a function of the
process behaviour.  Returns the `HookResult` together with the elapsed
time.  Note the translation point at the heart of claim C1: the source
awaits `anyio.run_process` with **no** timeout applied — the `timeout`
parameter is never read in the body — so the call returns only after the
process's full `duration`, whatever `timeout` is.  The `except` clauses
map `asyncio.TimeoutError` to the output `"timeout"` and any other
exception to `"error"`; output is stripped, truncated to 20 chars, and
empty output becomes `"-"`. -/
def run_hook (hook : ColumnHook) (worktree : Worktree) (timeout : Nat)
    (proc : ProcBehavior) : HookResult × Nat :=
  let output : String :=
    match proc.outcome with
    | .completed stdout => pyStrip stdout
    | .timeoutError => "timeout"
    | .execError => "error"
  let color := resolveColor hook.color_map output
  (⟨worktree.path, hook.name, if output = "" then "-" else output.take 20, color⟩,
    proc.duration)

/-- Insert into the inner `column name → HookResult` dict (Python dict
assignment: overwrite in place if the key exists, else append). -/
def insertInner (inner : List (String × HookResult)) (name : String) (r : HookResult) :
    List (String × HookResult) :=
  match inner with
  | [] => [(name, r)]
  | kv :: rest => if kv.1 = name then (name, r) :: rest else kv :: insertInner rest name r

/-- Insert into the outer `worktree path → (column name → HookResult)` dict. -/
def insertOuter (org : List (String × List (String × HookResult)))
    (path name : String) (r : HookResult) :
    List (String × List (String × HookResult)) :=
  match org with
  | [] => [(path, [(name, r)])]
  | kv :: rest =>
    if kv.1 = path then (path, insertInner kv.2 name r) :: rest
    else kv :: insertOuter rest path name r

/-- The loop body of `run_all_hooks`'s organising pass (hooks.py lines
120-125): a task result that is a real `HookResult` is inserted under its
worktree path and column name; an exception collected by `asyncio.gather`
is skipped by the `isinstance` filter. -/
def organizeStep (org : List (String × List (String × HookResult)))
    (res : Except Unit HookResult) : List (String × List (String × HookResult)) :=
  match res with
  | .ok r => insertOuter org r.worktree_path r.column_name r
  | .error _ => org

/-- `fwts.hooks.run_all_hooks` (hooks.py lines 94-127).  `spawn wt h` is the
outcome of the task for the pair: `.error` when the task raised before
producing a result, `.ok b` when `run_hook` ran with process behaviour `b`.
Tasks are created worktree-major, hook-minor; results are organised into
the two-level dict. -/
def run_all_hooks (hooks : List ColumnHook) (worktrees : List Worktree) (timeout : Nat)
    (spawn : Worktree → ColumnHook → Except Unit ProcBehavior) :
    List (String × List (String × HookResult)) :=
  if hooks.isEmpty || worktrees.isEmpty then []
  else
    let results : List (Except Unit HookResult) :=
      worktrees.flatMap fun wt =>
        hooks.map fun h => (spawn wt h).map fun b => (run_hook h wt timeout b).1
    results.foldl organizeStep []

/-! ## Embedding of the data model of `src/fwts/tui.py` and `src/fwts/github.py` -/

/-- `fwts.github.ReviewState`. -/
inductive ReviewState where
  | PENDING | APPROVED | CHANGES_REQUESTED | COMMENTED | DISMISSED
deriving DecidableEq, Repr

/-- `fwts.github.MergeableState`. -/
inductive MergeableState where
  | MERGEABLE | CONFLICTING | UNKNOWN
deriving DecidableEq, Repr

/-- `fwts.github.PRInfo`. -/
structure PRInfo where
  number : Nat
  title : String
  branch : String
  base_branch : String
  state : String
  url : String
  review_decision : Option ReviewState
  mergeable : MergeableState
  is_draft : Bool
deriving DecidableEq, Repr

/-- The fields of `fwts.github.DetailedPRInfo` that the dashboard state
machine reads (the record is otherwise carried around opaquely). -/
structure DetailedPRInfo where
  number : Nat
  title : String
  branch : String
  needs_your_review : Bool
deriving DecidableEq, Repr

/-- `fwts.tui.TUIMode`. -/
inductive TUIMode where
  | WORKTREES | TICKETS_MINE | TICKETS_REVIEW | TICKETS_ALL | PRS
deriving DecidableEq, Repr

/-- `fwts.tui.WorktreeInfo`. -/
structure WorktreeInfo where
  worktree : Worktree
  session_active : Bool := false
  docker_status : Option String := none
  hook_data : List (String × HookResult) := []
  pr_info : Option PRInfo := none
deriving DecidableEq, Repr

/-- `fwts.tui.PRDisplayInfo`. -/
structure PRDisplayInfo where
  pr : DetailedPRInfo
  has_local_worktree : Bool := false
  worktree_branch : Option String := none
deriving DecidableEq, Repr

/-- A ticket as returned by the Linear adapter (`fwts.linear`):
the attributes `_load_ticket_data` reads off each raw ticket.
An absent suggested branch is the empty string (falsy in Python). -/
structure RawTicket where
  id : String
  identifier : String
  title : String
  state : String
  state_type : String
  priority : Int
  assignee : Option String
  url : String
  branch_name : String
deriving DecidableEq, Repr

/-- `fwts.tui.TicketInfo`. -/
structure TicketInfo where
  id : String
  identifier : String
  title : String
  state : String
  state_type : String
  priority : Int
  assignee : Option String
  url : String
  branch_name : String
  has_local_worktree : Bool := false
  pr_info : Option PRInfo := none
deriving DecidableEq, Repr

/-- `fwts.tui.TUIState` (the fields the claims touch; `selected` is a
Python `set[int]`, modelled as a duplicate-free list of indices). -/
structure TUIState where
  cursor : Nat := 0
  selected : List Nat := []
  viewport_start : Nat := 0
  mode : TUIMode := .WORKTREES
  running : Bool := true
  status_message : Option String := none
  status_style : String := "dim"
  needs_refresh : Bool := true
  loading : Bool := false
  last_refresh : Nat := 0
  worktrees : List WorktreeInfo := []
  tickets : List TicketInfo := []
  prs : List PRDisplayInfo := []
deriving DecidableEq, Repr

/-- `FwtsTUI.viewport_size`: `max(5, console.height - 13)`. -/
def viewport_size (consoleHeight : Nat) : Nat :=
  max 5 (consoleHeight - 13)

/-- `FwtsTUI._get_current_items`, reduced to the length the navigation
code observes. -/
def currentItemsLen (s : TUIState) : Nat :=
  match s.mode with
  | .WORKTREES => s.worktrees.length
  | .PRS => s.prs.length
  | _ => s.tickets.length

/-- `FwtsTUI._switch_mode` (tui.py lines 1183-1190): a genuine transition
resets cursor, viewport, selection and marks the snapshot stale; a switch
to the already-active mode does nothing. -/
def switch_mode (s : TUIState) (new_mode : TUIMode) : TUIState :=
  if new_mode ≠ s.mode then
    { s with mode := new_mode, cursor := 0, viewport_start := 0,
             selected := [], needs_refresh := true }
  else s

/-- The fixed mode cycle of `FwtsTUI._cycle_mode` (tui.py lines 1192-1203). -/
def modeCycle : List TUIMode :=
  [.WORKTREES, .TICKETS_MINE, .TICKETS_REVIEW, .TICKETS_ALL, .PRS]

/-- `FwtsTUI._cycle_mode`. -/
def cycle_mode (s : TUIState) : TUIState :=
  let current_idx := modeCycle.findIdx (fun m => m == s.mode)
  let next_idx := (current_idx + 1) % modeCycle.length
  switch_mode s (modeCycle.getD next_idx .WORKTREES)

/-- The `j`/down-arrow branch of `FwtsTUI._handle_key` (tui.py lines
1237-1241): advance the cursor (clamped to the last index, forced to 0 on an
empty snapshot) and scroll the viewport down if the cursor left it. -/
def key_down (V : Nat) (s : TUIState) : TUIState :=
  let n := currentItemsLen s
  let s := { s with cursor := if n = 0 then 0 else min (s.cursor + 1) (n - 1) }
  if s.cursor ≥ s.viewport_start + V then
    { s with viewport_start := s.cursor - V + 1 }
  else s

/-- The `k`/up-arrow branch of `FwtsTUI._handle_key` (tui.py lines
1242-1246); `max(cursor - 1, 0)` is Nat subtraction. -/
def key_up (s : TUIState) : TUIState :=
  let s := { s with cursor := s.cursor - 1 }
  if s.cursor < s.viewport_start then
    { s with viewport_start := s.cursor }
  else s

/-- The operations claim C4 ranges over: up/down navigation, mode switches
(direct jump or tab-cycle), and mode-tagged snapshot replacement (the
background loaders' writes `state.worktrees = ...` etc., which touch no
navigation field). -/
inductive TUIOp where
  | keyDown
  | keyUp
  | switchTo (m : TUIMode)
  | cycleMode
  | setWorktrees (l : List WorktreeInfo)
  | setTickets (l : List TicketInfo)
  | setPrs (l : List PRDisplayInfo)

/-- Apply one operation to the dashboard state (`V` = viewport size). -/
def applyOp (V : Nat) (s : TUIState) : TUIOp → TUIState
  | .keyDown => key_down V s
  | .keyUp => key_up s
  | .switchTo m => switch_mode s m
  | .cycleMode => cycle_mode s
  | .setWorktrees l => { s with worktrees := l }
  | .setTickets l => { s with tickets := l }
  | .setPrs l => { s with prs := l }

/-- Apply a sequence of operations left to right. -/
def applyOps (V : Nat) (s : TUIState) (ops : List TUIOp) : TUIState :=
  ops.foldl (applyOp V) s

/-- Is the operation one of the navigation/mode-switch operations (no
snapshot replacement)? -/
def TUIOp.isNav : TUIOp → Bool
  | .keyDown => true
  | .keyUp => true
  | .switchTo _ => true
  | .cycleMode => true
  | _ => false

/-- The navigation invariant of claim C4, for snapshot length
`N = currentItemsLen s`: `cursor < max N 1`, and on a non-empty snapshot the
cursor lies inside the viewport window. -/
def NavInvariant (V : Nat) (s : TUIState) : Prop :=
  s.cursor < max (currentItemsLen s) 1 ∧
  (0 < currentItemsLen s →
    s.viewport_start ≤ s.cursor ∧ s.cursor < s.viewport_start + V)

instance (V : Nat) (s : TUIState) : Decidable (NavInvariant V s) := by
  unfold NavInvariant; infer_instance

/-! ## Ticket sorting and the mode data loaders -/

/-- The `type_order` dict of `_load_ticket_data` (tui.py lines 379-385). -/
def type_order : List (String × Nat) :=
  [("started", 0), ("unstarted", 1), ("backlog", 2), ("completed", 3), ("canceled", 4)]

/-- `type_order.get(t.state_type.lower(), 5)`. -/
def typeOrderRank (state_type : String) : Nat :=
  ((type_order.find? (fun p => p.1 == pyLower state_type)).map Prod.snd).getD 5

/-- `pr_sort_key` from `_load_ticket_data` (tui.py lines 387-400):
no PR < draft < open-awaiting-review < approved < merged < closed. -/
def pr_sort_key (ticket : TicketInfo) : Nat :=
  match ticket.pr_info with
  | none => 0
  | some pr =>
    if pr.state = "merged" then 4
    else if pr.state = "closed" then 5
    else if pr.is_draft then 1
    else if pr.review_decision = some ReviewState.APPROVED then 3
    else 2

/-- The full 3-component sort key of `state.tickets.sort` (tui.py lines
402-408): workflow-category rank, then PR-status rank, then `-priority`. -/
def ticketSortKey (t : TicketInfo) : Nat × Nat × Int :=
  (typeOrderRank t.state_type, pr_sort_key t, -t.priority)

/-- Python's lexicographic tuple comparison on the 3-component key. -/
def tupLe (a b : Nat × Nat × Int) : Prop :=
  a.1 < b.1 ∨ (a.1 = b.1 ∧ (a.2.1 < b.2.1 ∨ (a.2.1 = b.2.1 ∧ a.2.2 ≤ b.2.2)))

instance (a b : Nat × Nat × Int) : Decidable (tupLe a b) := by
  unfold tupLe; infer_instance

/-- The sort order `list.sort(key=...)` induces on tickets. -/
def ticketLE (a b : TicketInfo) : Prop :=
  tupLe (ticketSortKey a) (ticketSortKey b)

instance (a b : TicketInfo) : Decidable (ticketLE a b) := by
  unfold ticketLE; infer_instance

instance : IsTotal TicketInfo ticketLE := by
  constructor
  intro a b
  simp only [ticketLE, tupLe]
  omega

instance : IsTrans TicketInfo ticketLE := by
  constructor
  intro a b c hab hbc
  simp only [ticketLE, tupLe] at *
  omega

/-- `self.state.tickets.sort(key=...)`: a stable sort by the 3-component
key, modelled by insertion sort under `ticketLE`. -/
def sortTickets (l : List TicketInfo) : List TicketInfo :=
  l.insertionSort ticketLE

/-- Cross-referencing and PR lookup for one raw ticket (`_load_ticket_data`,
tui.py lines 342-375).  `local_branches` is the set of lowercased local
branch names; `prByBranch`/`searchByTicket` are the GitHub adapter calls,
`.error` meaning the call raised.  The two calls run inside one
`contextlib.suppress(Exception)` block: a raise abandons the block, leaving
`pr_info` at whatever it held so far (`None` — a raising `get_pr_by_branch`
also skips the fallback search). -/
def buildTicketInfo (github_repo : Option String) (local_branches : List String)
    (prByBranch : String → Except String (Option PRInfo))
    (searchByTicket : String → Except String (Option PRInfo))
    (t : RawTicket) : TicketInfo :=
  let has_local := local_branches.any fun branch =>
    containsStr branch (pyLower t.identifier) ||
      (t.branch_name ≠ "" && pyLower t.branch_name == branch)
  let pr_info : Option PRInfo :=
    match github_repo with
    | none => none
    | some _ =>
      match (if t.branch_name ≠ "" then prByBranch t.branch_name else .ok none) with
      | .error _ => none
      | .ok p₁ =>
        match p₁ with
        | some pr => some pr
        | none =>
          match searchByTicket t.identifier with
          | .error _ => none
          | .ok p₂ => p₂
  { id := t.id, identifier := t.identifier, title := t.title, state := t.state,
    state_type := t.state_type, priority := t.priority, assignee := t.assignee,
    url := t.url, branch_name := t.branch_name,
    has_local_worktree := has_local, pr_info := pr_info }

/-- `FwtsTUI._load_ticket_data` (tui.py lines 320-412).  The whole
fetch/build/sort runs under one `try`; on any error the `except` arm sets a
red status message and an empty ticket snapshot instead of raising.  The
mode-appropriate fetch result is passed in as `fetchMine`/`fetchReview`/
`fetchAll` (`.error e` = the Linear call raised `e`). -/
def load_ticket_data (github_repo : Option String) (local_branches : List String)
    (fetchMine fetchReview fetchAll : Except String (List RawTicket))
    (prByBranch searchByTicket : String → Except String (Option PRInfo))
    (st : TUIState) : TUIState :=
  let raw : Except String (List RawTicket) :=
    match st.mode with
    | .TICKETS_MINE => fetchMine
    | .TICKETS_REVIEW => fetchReview
    | .TICKETS_ALL => fetchAll
    | _ => .ok []
  match raw with
  | .ok ts =>
    let infos := ts.map (buildTicketInfo github_repo local_branches prByBranch searchByTicket)
    { st with tickets := sortTickets infos }
  | .error e =>
    { st with status_message := some ("Failed to load tickets: " ++ e),
              status_style := "red", tickets := [] }

/-- `FwtsTUI._load_worktree_data` (tui.py lines 256-318).  Unlike the
ticket and PR loaders this function has **no** `try`/`except`: a raise
while enumerating worktrees propagates out (modelled by `.error`).  Per-
worktree PR lookup is under `contextlib.suppress(Exception)`; the docker
status and tmux-session checks are external oracle calls; hook results come
from `run_all_hooks` and are merged in by worktree path. -/
def load_worktree_data (fetchWorktrees : Except String (List Worktree))
    (github_repo : Option String) (sessionActive : Worktree → Bool)
    (prByBranch : String → Except String (Option PRInfo))
    (dockerEnabled : Bool) (dockerStatus : Worktree → Option String)
    (hooks : List ColumnHook)
    (spawn : Worktree → ColumnHook → Except Unit ProcBehavior)
    (st : TUIState) : Except String TUIState :=
  match fetchWorktrees with
  | .error e => .error e
  | .ok worktrees =>
    let hook_results := run_all_hooks hooks worktrees 10 spawn
    let new_worktrees := worktrees.map fun wt =>
      { worktree := wt
        session_active := sessionActive wt
        pr_info :=
          match github_repo with
          | none => none
          | some _ =>
            match prByBranch wt.branch with
            | .error _ => none
            | .ok p => p
        docker_status := if dockerEnabled then dockerStatus wt else none
        hook_data :=
          (((hook_results.find? (fun kv => kv.1 == wt.path)).map Prod.snd).getD []) }
    .ok { st with worktrees := new_worktrees }

/-- `FwtsTUI._load_pr_data` (tui.py lines 414-452).  With no configured
repo it sets a red status and an empty snapshot; otherwise the fetch and
cross-reference run under `try`, the `except` arm again converting any
raise into a red status plus empty snapshot.  On success PRs are stably
sorted with the needs-your-review ones first. -/
def load_pr_data (github_repo : Option String)
    (listDetailed : Except String (List DetailedPRInfo))
    (fetchWorktrees : Except String (List Worktree))
    (st : TUIState) : TUIState :=
  match github_repo with
  | none =>
    { st with prs := [], status_message := some "No github_repo configured",
              status_style := "red" }
  | some _ =>
    match listDetailed, fetchWorktrees with
    | .ok detailed_prs, .ok local_worktrees =>
      let local_branches := local_worktrees.map fun wt => (pyLower wt.branch, wt.branch)
      let pr_display_list := detailed_prs.map fun pr =>
        { pr := pr
          has_local_worktree := (local_branches.find? (fun kv => kv.1 == pyLower pr.branch)).isSome
          worktree_branch :=
            (local_branches.find? (fun kv => kv.1 == pyLower pr.branch)).map Prod.snd }
      let sorted := pr_display_list.insertionSort
        (fun p q => (if p.pr.needs_your_review then 0 else 1) ≤
                    (if q.pr.needs_your_review then 0 else 1))
      { st with prs := sorted }
    | .error e, _ =>
      { st with status_message := some ("Failed to load PRs: " ++ e),
                status_style := "red", prs := [] }
    | _, .error e =>
      { st with status_message := some ("Failed to load PRs: " ++ e),
                status_style := "red", prs := [] }

/-- The post-load bookkeeping of `_load_data` (tui.py lines 468-473):
clear the loading flag, mark fresh, stamp the refresh time, and clear a
leftover "Refreshing..." status. -/
def finishLoad (now : Nat) (st : TUIState) : TUIState :=
  { st with loading := false, needs_refresh := false, last_refresh := now,
            status_message :=
              if st.status_message = none ∨ st.status_message = some "Refreshing..." then none
              else st.status_message }

/-- `FwtsTUI._load_data` (tui.py lines 454-473): mark loading, dispatch on
the mode, then run the bookkeeping.  In worktrees mode an error from the
loader propagates (`.error`) — the bookkeeping block is skipped, so the
state is never updated with a message or an empty snapshot. -/
def load_data (github_repo : Option String) (local_branches : List String)
    (fetchWorktrees : Except String (List Worktree))
    (fetchMine fetchReview fetchAll : Except String (List RawTicket))
    (listDetailed : Except String (List DetailedPRInfo))
    (prByBranch searchByTicket : String → Except String (Option PRInfo))
    (sessionActive : Worktree → Bool)
    (dockerEnabled : Bool) (dockerStatus : Worktree → Option String)
    (hooks : List ColumnHook)
    (spawn : Worktree → ColumnHook → Except Unit ProcBehavior)
    (now : Nat) (st : TUIState) : Except String TUIState :=
  let st₁ := { st with loading := true, status_message := some "Refreshing...",
                       status_style := "yellow" }
  match st₁.mode with
  | .WORKTREES =>
    (load_worktree_data fetchWorktrees github_repo sessionActive prByBranch
        dockerEnabled dockerStatus hooks spawn st₁).map (finishLoad now)
  | .PRS =>
    .ok (finishLoad now (load_pr_data github_repo listDetailed fetchWorktrees st₁))
  | _ =>
    .ok (finishLoad now (load_ticket_data github_repo local_branches fetchMine
          fetchReview fetchAll prByBranch searchByTicket st₁))

/-! ## Selection, cleanup verification, and the failure/retry protocol -/

/-- `FwtsTUI.get_selected_worktrees` (tui.py lines 1295-1302).  Empty
selection: the worktree under the cursor when the cursor is in range, else
the empty list.  Non-empty selection: `[worktrees[i] for i in
sorted(selected)]` — `none` models the `IndexError` Python would raise on a
stale out-of-range index. -/
def get_selected_worktrees (st : TUIState) : Option (List WorktreeInfo) :=
  if st.selected = [] then
    some (if h : st.cursor < st.worktrees.length then [st.worktrees.get ⟨st.cursor, h⟩] else [])
  else
    (st.selected.insertionSort (· ≤ ·)).mapM fun i => st.worktrees[i]?

/-- The outcome of one invocation of the caller-supplied cleanup operation,
as assembled by `_run_cleanup_in_thread` polling (`result` dict). -/
structure CleanupResult where
  success : Bool
  error : Option String
  logs : String
deriving DecidableEq, Repr

/-- `FwtsTUI._run_cleanup_in_thread` (tui.py lines 1329-1374).
`cleanupOutcome` is what `self._cleanup_func(worktree, config, force=...)`
does (`.error e` = it raised `e`), `capturedLogs` the text the swapped-in
console captured, and `pathExistsAfter` whether the worktree directory
still exists once the operation returns.  Success is recorded only when
the operation returned normally *and* the directory is gone. -/
def run_cleanup_in_thread (cleanupOutcome : Except String Unit)
    (capturedLogs : String) (pathExistsAfter : Bool) : CleanupResult :=
  match cleanupOutcome with
  | .error e => { success := false, error := some e, logs := capturedLogs }
  | .ok _ =>
    if pathExistsAfter then
      { success := false, error := some "Worktree still exists after cleanup",
        logs := capturedLogs }
    else
      { success := true, error := none, logs := capturedLogs }

/-- Consume the body of an ANSI colour escape after `ESC [`: zero or more
digits or semicolons terminated by `m` (the regex `\x1b\[[0-9;]*m` of
`_run_inline_cleanup`).  Returns the remainder on a match. -/
def takeColorSeq : List Char → Option (List Char)
  | [] => none
  | c :: cs =>
    if c = 'm' then some cs
    else if c.isDigit ∨ c = ';' then takeColorSeq cs
    else none

theorem takeColorSeq_length {cs rest : List Char} (h : takeColorSeq cs = some rest) :
    rest.length ≤ cs.length := by
  induction cs with
  | nil => simp [takeColorSeq] at h
  | cons c cs ih =>
    simp only [takeColorSeq] at h
    split at h
    · cases h; simp
    · split at h
      · exact Nat.le_succ_of_le (ih h)
      · cases h

/-- `re.sub(r"\x1b\[[0-9;]*m", "", logs)` on the char list: remove every
ANSI colour escape, leaving unterminated escapes untouched.  The fuel
argument only bounds the recursion depth; every recursive call strictly
shrinks the list, so fuel equal to the list length is always enough (when
the fuel hits 0 the list is already empty). -/
def stripAnsiAux : Nat → List Char → List Char
  | 0, l => l
  | _ + 1, [] => []
  | fuel + 1, '\x1b' :: '[' :: cs =>
    match takeColorSeq cs with
    | some rest => stripAnsiAux fuel rest
    | none => '\x1b' :: stripAnsiAux fuel ('[' :: cs)
  | fuel + 1, c :: cs => c :: stripAnsiAux fuel cs

/-- `clean_logs = re.sub(r"\x1b\[[0-9;]*m", "", logs)`. -/
def stripAnsi (logs : String) : String :=
  ⟨stripAnsiAux logs.toList.length logs.toList⟩

/-- The fatal-error-signature parse of `_run_inline_cleanup` (tui.py lines
1432-1445): strip colour codes, then check for the uncommitted-changes and
invalid-reference signatures, then fall back to the first `fatal:` line;
no signature leaves the reason empty. -/
def extract_reason (logs : String) : String :=
  let clean_logs := stripAnsi logs
  if containsStr clean_logs "modified or untracked files" then
    "has uncommitted changes"
  else if containsStr clean_logs "is not a valid reference" then
    "branch reference invalid"
  else if containsStr clean_logs "fatal:" then
    (((clean_logs.splitOn "\n").find? (fun line => containsStr line "fatal:")).map
      pyStrip).getD ""
  else ""

/-- The keyboard seen from inside `_run_inline_cleanup`: `buffered` holds
keystrokes already waiting in the stdin buffer when the cleanup operation
finishes, `arriving` those the user types afterwards while the prompt is
waiting (`_get_key_with_timeout` reads at most one of them within its
timeout window). -/
structure Stdin where
  buffered : List String
  arriving : List String
deriving DecidableEq, Repr

/-- `FwtsTUI._flush_stdin` (tui.py lines 489-500): drain every currently
buffered keystroke. -/
def flush_stdin (s : Stdin) : Stdin :=
  { s with buffered := [] }

/-- `FwtsTUI._get_key_with_timeout` (tui.py lines 1611-1642): return a
buffered key if one is waiting, otherwise the next key to arrive within
`timeout` time-units, otherwise `none`. -/
def get_key_with_timeout (timeout : Nat) (s : Stdin) : Option String × Stdin :=
  match s.buffered with
  | k :: rest => (some k, { s with buffered := rest })
  | [] =>
    match s.arriving with
    | k :: rest => (some k, { buffered := [], arriving := rest })
    | [] => (none, s)

/-- The per-unit outcome of the inline-cleanup protocol. -/
inductive UnitReport where
  | cleaned
  | forceCleaned
  | forceFailed (error : Option String) (logs : String)
  | skipped
deriving DecidableEq, Repr

/-- Everything observable about processing one unit in
`_run_inline_cleanup`: the reported outcome, the reason line shown at the
failure prompt (if one was shown), the force-flags of the operation
invocations in order, the keyboard state afterwards, and how many
keystrokes were consumed after the flush. -/
structure CleanupStep where
  report : UnitReport
  promptReason : Option String
  forceCalls : List Bool
  stdinAfter : Stdin
  keysRead : Nat
deriving DecidableEq, Repr

/-- One iteration of the unit loop of `FwtsTUI._run_inline_cleanup`
(tui.py lines 1389-1511).  `runOp force` is the `CleanupResult` produced
by `_run_cleanup_in_thread` for that invocation.  On failure the captured
log is parsed into a short reason (falling back to the recorded error,
`"Unknown error"` if somehow absent), buffered keystrokes are flushed,
one keystroke is awaited for up to 30 time-units, and only the key `"f"`
triggers a single forced re-run whose own success or failure is final. -/
def run_cleanup_unit (runOp : Bool → CleanupResult) (stdin : Stdin) : CleanupStep :=
  let result := runOp false
  if result.success then
    { report := .cleaned, promptReason := none, forceCalls := [false],
      stdinAfter := stdin, keysRead := 0 }
  else
    let logs := pyStrip result.logs
    let error_msg := result.error.getD "Unknown error"
    let reason := extract_reason logs
    let shown := if reason = "" then error_msg else reason
    let stdin₁ := flush_stdin stdin
    let read := get_key_with_timeout 30 stdin₁
    let key := read.1
    let stdin₂ := read.2
    if key = some "f" then
      let force_result := runOp true
      if force_result.success then
        { report := .forceCleaned, promptReason := some shown,
          forceCalls := [false, true], stdinAfter := stdin₂, keysRead := 1 }
      else
        { report := .forceFailed force_result.error (pyStrip force_result.logs),
          promptReason := some shown, forceCalls := [false, true],
          stdinAfter := stdin₂, keysRead := 1 }
    else
      { report := .skipped, promptReason := some shown, forceCalls := [false],
        stdinAfter := stdin₂, keysRead := if key = none then 0 else 1 }

/-! ## Spec-side definitions used for comparison -/

/-- The colour-resolution rule exactly as claim C2 states it: first an
exact **case-insensitive** match of the output against the table's keys
(first-registered key wins on ties), then the first registered key that
occurs as a case-insensitive substring of the output, else no colour. -/
def specColorResolution (color_map : List (String × String)) (output : String) :
    Option String :=
  match color_map.find? (fun kv => pyLower kv.1 == pyLower output) with
  | some kv => some kv.2
  | none =>
    (color_map.find? (fun kv => containsStr (pyLower output) (pyLower kv.1))).map Prod.snd

/-- The colour-resolution rule as amended: the exact pass looks the
*lowercased output* up among the stored keys verbatim (case-insensitive in
the output only — a non-lowercase stored key never matches exactly); with
no exact match, the first registered key that is a case-insensitive
substring of the output wins; otherwise the colour is unset. -/
def amendedColorResolution (color_map : List (String × String)) (output : String) :
    Option String :=
  match dictGet color_map (pyLower output) with
  | some c => some c
  | none =>
    (color_map.find? (fun kv => containsStr (pyLower output) (pyLower kv.1))).map Prod.snd

/-- Placeholder element for stating list indexing with `getD`. -/
def defaultWorktreeInfo : WorktreeInfo :=
  { worktree := { path := "", branch := "", is_bare := false } }

/-! ## C1 -/

/-- C1: the claim says `run_hook` returns within `timeout` plus a small
epsilon of the configured per-probe timeout, yielding the sentinel
`"timeout"` on a timeout and `"error"` on any other execution error.  The
exception-to-sentinel mapping is real, but the timeout is never enforced:
`run_hook` is entirely independent of its `timeout` argument, and a probe
whose command runs for 1000 time-units makes `run_hook` take 1000
time-units (far beyond `timeout = 10`) and return the command's real
output instead of `"timeout"`. -/
theorem c1_run_hook_timeout_not_enforced :
    (∀ (hook : ColumnHook) (wt : Worktree) (proc : ProcBehavior) (t₁ t₂ : Nat),
      run_hook hook wt t₁ proc = run_hook hook wt t₂ proc) ∧
    (run_hook ⟨"Merge", "slow-probe", [("blocked", "yellow")]⟩ ⟨"/wt", "feat", false⟩ 10
        ⟨1000, .completed "hello"⟩).2 = 1000 ∧
    (run_hook ⟨"Merge", "slow-probe", [("blocked", "yellow")]⟩ ⟨"/wt", "feat", false⟩ 10
        ⟨1000, .completed "hello"⟩).1.value = "hello" ∧
    (run_hook ⟨"Merge", "slow-probe", [("blocked", "yellow")]⟩ ⟨"/wt", "feat", false⟩ 10
        ⟨0, .timeoutError⟩).1.value = "timeout" ∧
    (run_hook ⟨"Merge", "slow-probe", [("blocked", "yellow")]⟩ ⟨"/wt", "feat", false⟩ 10
        ⟨0, .execError⟩).1.value = "error" := by
  refine ⟨fun _ _ _ _ _ => rfl, rfl, ?_, ?_, ?_⟩ <;> decide

/-! ## C2 -/

/-- C2 counterexample: with the colour table `{"b": "blue", "ABC": "red"}`
(registered in that order) and output `"abc"`, the claimed rule finds the
exact case-insensitive match `"ABC"` and yields `"red"`, but the code's
exact pass (`color_map.get(output.lower())`) misses the non-lowercase key
and the substring pass then returns the earlier key's `"blue"`. -/
theorem c2_exact_match_not_case_insensitive :
    specColorResolution [("b", "blue"), ("ABC", "red")] "abc" = some "red" ∧
    resolveColor [("b", "blue"), ("ABC", "red")] "abc" = some "blue" := by
  constructor <;> decide

/-- C2 as amended: the exact pass matches the lowercased output against
the stored keys verbatim (so it is case-insensitive in the output only);
with no exact match the first registered case-insensitive substring key
wins; no match at all leaves the colour unset.  (Empty-string colour
values — which Python's `if not color:` also treats as missing — are
excluded by hypothesis.)  The claim's concrete example stands: output
`"blocked:CI+review"` under `{"blocked": "yellow"}` resolves to
`"yellow"`. -/
theorem c2_color_resolution_amended (color_map : List (String × String)) (output : String)
    (hvals : ∀ kv ∈ color_map, kv.2 ≠ "") :
    resolveColor color_map output = amendedColorResolution color_map output ∧
    resolveColor [("blocked", "yellow")] "blocked:CI+review" = some "yellow" := by
  constructor
  · unfold resolveColor amendedColorResolution
    cases hc : dictGet color_map (pyLower output) with
    | none =>
      simp only [hc]
      cases color_map.find? (fun kv => containsStr (pyLower output) (pyLower kv.1)) <;> simp
    | some c =>
      have hcne : c ≠ "" := by
        unfold dictGet at hc
        cases hf : color_map.find? (fun p => p.1 == pyLower output) with
        | none => simp [hf] at hc
        | some kv =>
          simp only [hf] at hc
          have hkv := hvals kv (List.mem_of_find?_eq_some hf)
          simp only [Option.map_some', Option.some_inj] at hc
          exact hc ▸ hkv
      simp [hc, hcne]
  · decide

/-- Witness for the amended C2 theorem at the concrete colour table of the
claim's example. -/
theorem c2_color_resolution_amended_witness :
    resolveColor [("blocked", "yellow")] "blocked:CI+review" =
      amendedColorResolution [("blocked", "yellow")] "blocked:CI+review" :=
  (c2_color_resolution_amended [("blocked", "yellow")] "blocked:CI+review"
    (by decide)).1

/-! ## C3 -/

theorem msg_tickets_ne_refreshing (e : String) :
    ("Failed to load tickets: " ++ e) ≠ "Refreshing..." := by
  intro h
  have h1 := congrArg String.length h
  rw [String.length_append] at h1
  have h2 : ("Failed to load tickets: ").length = 24 := rfl
  have h3 : ("Refreshing...").length = 13 := rfl
  omega

theorem msg_prs_ne_refreshing (e : String) :
    ("Failed to load PRs: " ++ e) ≠ "Refreshing..." := by
  intro h
  have h1 := congrArg String.length h
  rw [String.length_append] at h1
  have h2 : ("Failed to load PRs: ").length = 20 := rfl
  have h3 : ("Refreshing...").length = 13 := rfl
  omega

/-- C3 counterexample: in the worktrees mode a failing worktree
enumeration propagates out of the data-loading step (`.error`), so the
claim "in every view mode (units/worktrees mode included) a fetch error is
caught and converted into a status message" is false at this input. -/
theorem c3_worktree_fetch_error_propagates :
    load_data none [] (.error "boom") (.ok []) (.ok []) (.ok []) (.ok [])
      (fun _ => .ok none) (fun _ => .ok none) (fun _ => false) false (fun _ => none)
      [] (fun _ _ => .error ()) 0 { mode := .WORKTREES } = .error "boom" := rfl

/-- C3 as amended: in the three ticket modes and in the PR mode a fetch
error is caught, converted into a red status message, and yields an empty
snapshot; in the worktrees mode, however, an error raised while
enumerating worktrees propagates out of the data-loading step unhandled
(leaving neither a status message nor an empty snapshot behind). -/
theorem c3_fetch_error_handling :
    (∀ (gr : Option String) (lb : List String)
        (fW : Except String (List Worktree)) (lD : Except String (List DetailedPRInfo))
        (prB sB : String → Except String (Option PRInfo)) (sess : Worktree → Bool)
        (dEn : Bool) (dSt : Worktree → Option String) (hooks : List ColumnHook)
        (spawn : Worktree → ColumnHook → Except Unit ProcBehavior) (now : Nat)
        (st : TUIState) (e : String),
      (st.mode = .TICKETS_MINE ∨ st.mode = .TICKETS_REVIEW ∨ st.mode = .TICKETS_ALL) →
      ∃ st', load_data gr lb fW (.error e) (.error e) (.error e) lD prB sB sess dEn dSt
                hooks spawn now st = .ok st' ∧
             st'.status_message = some ("Failed to load tickets: " ++ e) ∧
             st'.status_style = "red" ∧ st'.tickets = []) ∧
    (∀ (repo : String) (lb : List String)
        (fW : Except String (List Worktree))
        (fM fR fA : Except String (List RawTicket))
        (prB sB : String → Except String (Option PRInfo)) (sess : Worktree → Bool)
        (dEn : Bool) (dSt : Worktree → Option String) (hooks : List ColumnHook)
        (spawn : Worktree → ColumnHook → Except Unit ProcBehavior) (now : Nat)
        (st : TUIState) (e : String),
      st.mode = .PRS →
      ∃ st', load_data (some repo) lb fW fM fR fA (.error e) prB sB sess dEn dSt
                hooks spawn now st = .ok st' ∧
             st'.status_message = some ("Failed to load PRs: " ++ e) ∧
             st'.status_style = "red" ∧ st'.prs = []) ∧
    (∀ (gr : Option String) (lb : List String)
        (fM fR fA : Except String (List RawTicket))
        (lD : Except String (List DetailedPRInfo))
        (prB sB : String → Except String (Option PRInfo)) (sess : Worktree → Bool)
        (dEn : Bool) (dSt : Worktree → Option String) (hooks : List ColumnHook)
        (spawn : Worktree → ColumnHook → Except Unit ProcBehavior) (now : Nat)
        (st : TUIState) (e : String),
      st.mode = .WORKTREES →
      load_data gr lb (.error e) fM fR fA lD prB sB sess dEn dSt hooks spawn now st =
        .error e) := by
  refine ⟨?_, ?_, ?_⟩
  · intro gr lb fW lD prB sB sess dEn dSt hooks spawn now st e hm
    have hne := msg_tickets_ne_refreshing e
    rcases hm with hm | hm | hm <;>
    · simp only [load_data, hm, load_ticket_data, finishLoad]
      refine ⟨_, rfl, ?_, ?_, ?_⟩ <;> simp [hne]
  · intro repo lb fW fM fR fA prB sB sess dEn dSt hooks spawn now st e hm
    have hne := msg_prs_ne_refreshing e
    cases fW <;>
    · simp only [load_data, hm, load_pr_data, finishLoad]
      refine ⟨_, rfl, ?_, ?_, ?_⟩ <;> simp [hne]
  · intro gr lb fM fR fA lD prB sB sess dEn dSt hooks spawn now st e hm
    simp [load_data, hm, load_worktree_data, Except.map]

/-- Witness for the amended C3 theorem: each arm applied at a concrete
input. -/
theorem c3_fetch_error_handling_witness :
    (∃ st', load_data none [] (.ok []) (.error "x") (.error "x") (.error "x") (.ok [])
        (fun _ => .ok none) (fun _ => .ok none) (fun _ => false) false (fun _ => none)
        [] (fun _ _ => .error ()) 0 { mode := .TICKETS_MINE } = .ok st' ∧
      st'.status_message = some ("Failed to load tickets: " ++ "x") ∧
      st'.status_style = "red" ∧ st'.tickets = []) ∧
    (∃ st', load_data (some "o/r") [] (.ok []) (.ok []) (.ok []) (.ok []) (.error "y")
        (fun _ => .ok none) (fun _ => .ok none) (fun _ => false) false (fun _ => none)
        [] (fun _ _ => .error ()) 0 { mode := .PRS } = .ok st' ∧
      st'.status_message = some ("Failed to load PRs: " ++ "y") ∧
      st'.status_style = "red" ∧ st'.prs = []) ∧
    load_data none [] (.error "z") (.ok []) (.ok []) (.ok []) (.ok [])
      (fun _ => .ok none) (fun _ => .ok none) (fun _ => false) false (fun _ => none)
      [] (fun _ _ => .error ()) 0 { mode := .WORKTREES } = .error "z" := by
  refine ⟨?_, ?_, ?_⟩
  · exact c3_fetch_error_handling.1 none [] (.ok []) (.ok [])
      (fun _ => .ok none) (fun _ => .ok none) (fun _ => false) false (fun _ => none)
      [] (fun _ _ => .error ()) 0 { mode := .TICKETS_MINE } "x" (Or.inl rfl)
  · exact c3_fetch_error_handling.2.1 "o/r" [] (.ok []) (.ok []) (.ok []) (.ok [])
      (fun _ => .ok none) (fun _ => .ok none) (fun _ => false) false (fun _ => none)
      [] (fun _ _ => .error ()) 0 { mode := .PRS } "y" rfl
  · exact c3_fetch_error_handling.2.2 none [] (.ok []) (.ok []) (.ok []) (.ok [])
      (fun _ => .ok none) (fun _ => .ok none) (fun _ => false) false (fun _ => none)
      [] (fun _ _ => .error ()) 0 { mode := .WORKTREES } "z" rfl

/-! ## C4 -/

theorem currentItemsLen_update (s : TUIState) (c v : Nat) :
    currentItemsLen { s with cursor := c, viewport_start := v } = currentItemsLen s := by
  unfold currentItemsLen
  cases s.mode <;> rfl

theorem currentItemsLen_cursor (s : TUIState) (c : Nat) :
    currentItemsLen { s with cursor := c } = currentItemsLen s := by
  unfold currentItemsLen
  cases s.mode <;> rfl

theorem navInv_key_down (V : Nat) (hV : 1 ≤ V) (s : TUIState)
    (hs : NavInvariant V s) : NavInvariant V (key_down V s) := by
  obtain ⟨h1, h2⟩ := hs
  unfold key_down
  dsimp only
  split_ifs with h0 hge hge <;>
    unfold NavInvariant <;>
    simp only [currentItemsLen_update, currentItemsLen_cursor] <;>
    refine ⟨by omega, fun hpos => ?_⟩ <;>
    have hvp := h2 hpos <;>
    omega

theorem navInv_key_up (V : Nat) (hV : 1 ≤ V) (s : TUIState)
    (hs : NavInvariant V s) : NavInvariant V (key_up s) := by
  obtain ⟨h1, h2⟩ := hs
  unfold key_up
  dsimp only
  split_ifs with hlt <;>
    unfold NavInvariant <;>
    simp only [currentItemsLen_update, currentItemsLen_cursor] <;>
    refine ⟨by omega, fun hpos => ?_⟩ <;>
    have hvp := h2 hpos <;>
    omega

theorem navInv_switch_mode (V : Nat) (hV : 1 ≤ V) (s : TUIState)
    (hs : NavInvariant V s) (m : TUIMode) : NavInvariant V (switch_mode s m) := by
  unfold switch_mode
  split_ifs with h
  · unfold NavInvariant currentItemsLen
    cases m <;> dsimp only <;> exact ⟨by omega, fun hn => by omega⟩
  · exact hs

theorem navInv_cycle_mode (V : Nat) (hV : 1 ≤ V) (s : TUIState)
    (hs : NavInvariant V s) : NavInvariant V (cycle_mode s) := by
  unfold cycle_mode
  exact navInv_switch_mode V hV s hs _

/-- C4 counterexample: starting from a state satisfying the navigation
invariant (two worktrees, cursor at 0), one down-navigation followed by a
snapshot replacement with an empty list — a sequence of exactly the
operations the claim quantifies over — leaves `cursor = 1` with
`N = 0`, violating `cursor < max(N, 1)`: snapshot replacement never
re-clamps the cursor. -/
theorem c4_snapshot_replacement_breaks_invariant :
    NavInvariant 11
      { worktrees := [{ worktree := { path := "/a", branch := "a", is_bare := false } },
                      { worktree := { path := "/b", branch := "b", is_bare := false } }] } ∧
    ¬ NavInvariant 11
      (applyOps 11
        { worktrees := [{ worktree := { path := "/a", branch := "a", is_bare := false } },
                        { worktree := { path := "/b", branch := "b", is_bare := false } }] }
        [TUIOp.keyDown, TUIOp.setWorktrees []]) := by
  constructor <;> decide

/-- C4 as amended: after any sequence of up/down navigation and
mode-switch operations (tab-cycle or direct jump) applied to a dashboard
state satisfying the navigation invariant, the invariant still holds:
`0 ≤ cursor < max(N, 1)` and, when `N > 0`,
`viewport_start ≤ cursor < viewport_start + viewport_size`.  Snapshot
replacements are excluded: they do not re-clamp the cursor, so a
replacement that shrinks the current snapshot can leave the cursor out of
range until a later navigation, mode switch, or resize adjustment. -/
theorem c4_nav_invariant_preserved (V : Nat) (hV : 1 ≤ V) (s : TUIState)
    (hs : NavInvariant V s) (ops : List TUIOp)
    (hops : ∀ op ∈ ops, op.isNav = true) :
    NavInvariant V (applyOps V s ops) := by
  induction ops generalizing s with
  | nil => exact hs
  | cons op rest ih =>
    have hop := hops op (List.mem_cons_self op rest)
    have hrest : ∀ o ∈ rest, o.isNav = true :=
      fun o ho => hops o (List.mem_cons_of_mem op ho)
    have hstep : NavInvariant V (applyOp V s op) := by
      cases op with
      | keyDown => exact navInv_key_down V hV s hs
      | keyUp => exact navInv_key_up V hV s hs
      | switchTo m => exact navInv_switch_mode V hV s hs m
      | cycleMode => exact navInv_cycle_mode V hV s hs
      | setWorktrees l => simp [TUIOp.isNav] at hop
      | setTickets l => simp [TUIOp.isNav] at hop
      | setPrs l => simp [TUIOp.isNav] at hop
    exact ih (applyOp V s op) hstep hrest

/-- Witness for the amended C4 theorem: a concrete navigation sequence on
a two-element snapshot. -/
theorem c4_nav_invariant_preserved_witness :
    NavInvariant 11
      (applyOps 11
        { worktrees := [{ worktree := { path := "/a", branch := "a", is_bare := false } },
                        { worktree := { path := "/b", branch := "b", is_bare := false } }] }
        [TUIOp.keyDown, TUIOp.keyDown, TUIOp.cycleMode, TUIOp.keyUp,
         TUIOp.switchTo TUIMode.WORKTREES]) :=
  c4_nav_invariant_preserved 11 (by decide)
    { worktrees := [{ worktree := { path := "/a", branch := "a", is_bare := false } },
                    { worktree := { path := "/b", branch := "b", is_bare := false } }] }
    (by decide)
    [TUIOp.keyDown, TUIOp.keyDown, TUIOp.cycleMode, TUIOp.keyUp,
     TUIOp.switchTo TUIMode.WORKTREES]
    (by intro o ho; fin_cases ho <;> rfl)

/-! ## C5 -/

/-- A PR record with the fields relevant to the ticket sort. -/
def examplePR (state : String) (draft : Bool) (review : Option ReviewState) : PRInfo :=
  { number := 1, title := "", branch := "", base_branch := "main", state := state,
    url := "", review_decision := review, mergeable := .UNKNOWN, is_draft := draft }

/-- A ticket record with the fields relevant to the ticket sort. -/
def exampleTicket (state_type : String) (priority : Int) (pr : Option PRInfo) : TicketInfo :=
  { id := "t", identifier := "ENG-1", title := "", state := "", state_type := state_type,
    priority := priority, assignee := none, url := "", branch_name := "", pr_info := pr }

/-- C5: the ticket-mode snapshot is sorted under the 3-component key
(workflow-category rank, then PR-review rank, then priority descending)
and is a permutation of the cross-referenced tickets; the two rank tables
are exactly as claimed; and the claim's concrete example holds: a
started/no-review/priority-9 ticket sorts before a started/draft/priority-9
ticket, which sorts before an unstarted/no-review/priority-10 ticket. -/
theorem c5_ticket_sort :
    (∀ (gr : Option String) (lb : List String) (ts : List RawTicket)
        (prB sB : String → Except String (Option PRInfo)) (st : TUIState),
      (st.mode = .TICKETS_MINE ∨ st.mode = .TICKETS_REVIEW ∨ st.mode = .TICKETS_ALL) →
      List.Sorted ticketLE
          (load_ticket_data gr lb (.ok ts) (.ok ts) (.ok ts) prB sB st).tickets ∧
        (load_ticket_data gr lb (.ok ts) (.ok ts) (.ok ts) prB sB st).tickets.Perm
          (ts.map (buildTicketInfo gr lb prB sB))) ∧
    (typeOrderRank "started" = 0 ∧ typeOrderRank "unstarted" = 1 ∧
      typeOrderRank "backlog" = 2 ∧ typeOrderRank "completed" = 3 ∧
      typeOrderRank "canceled" = 4 ∧ typeOrderRank "Triage" = 5) ∧
    (pr_sort_key (exampleTicket "started" 9 none) = 0 ∧
      pr_sort_key (exampleTicket "started" 9 (some (examplePR "open" true none))) = 1 ∧
      pr_sort_key (exampleTicket "started" 9 (some (examplePR "open" false none))) = 2 ∧
      pr_sort_key (exampleTicket "started" 9
        (some (examplePR "open" false (some .APPROVED)))) = 3 ∧
      pr_sort_key (exampleTicket "started" 9 (some (examplePR "merged" false none))) = 4 ∧
      pr_sort_key (exampleTicket "started" 9 (some (examplePR "closed" false none))) = 5) ∧
    sortTickets
        [exampleTicket "unstarted" 10 none,
         exampleTicket "started" 9 (some (examplePR "open" true none)),
         exampleTicket "started" 9 none] =
      [exampleTicket "started" 9 none,
       exampleTicket "started" 9 (some (examplePR "open" true none)),
       exampleTicket "unstarted" 10 none] := by
  refine ⟨?_, by decide, by decide, by decide⟩
  intro gr lb ts prB sB st hm
  rcases hm with hm | hm | hm <;>
  · simp only [load_ticket_data, hm, sortTickets]
    exact ⟨List.sorted_insertionSort ticketLE _, List.perm_insertionSort ticketLE _⟩

/-- A concrete raw ticket used to witness the C5 theorem. -/
def exampleRawTicket : RawTicket :=
  { id := "1", identifier := "ENG-1", title := "", state := "",
    state_type := "started", priority := 9, assignee := none, url := "",
    branch_name := "" }

/-- Witness for C5 at a concrete ticket-mode state and ticket list. -/
theorem c5_ticket_sort_witness :
    List.Sorted ticketLE
        (load_ticket_data none [] (.ok [exampleRawTicket]) (.ok []) (.ok [])
          (fun _ => .ok none) (fun _ => .ok none) { mode := .TICKETS_MINE }).tickets :=
  (c5_ticket_sort.1 none [] [exampleRawTicket]
    (fun _ => .ok none) (fun _ => .ok none) { mode := .TICKETS_MINE } (Or.inl rfl)).1

/-! ## C6 -/

/-- The two-level dict really is a dict: outer keys are distinct, and so
are the inner keys under every outer key — at most one entry per
(worktree, column) pair. -/
def OrgWellFormed (org : List (String × List (String × HookResult))) : Prop :=
  (org.map Prod.fst).Nodup ∧ ∀ p ∈ org, (p.2.map Prod.fst).Nodup

theorem insertInner_keys (inner : List (String × HookResult)) (name : String)
    (r : HookResult) (k : String) (hk : k ∈ (insertInner inner name r).map Prod.fst) :
    k = name ∨ k ∈ inner.map Prod.fst := by
  induction inner with
  | nil => simpa [insertInner] using hk
  | cons kv rest ih =>
    simp only [insertInner] at hk
    split_ifs at hk with h
    · simp only [List.map_cons, List.mem_cons] at hk ⊢
      tauto
    · simp only [List.map_cons, List.mem_cons] at hk ⊢
      rcases hk with hk | hk
      · exact Or.inr (Or.inl hk)
      · rcases ih hk with hk | hk
        · exact Or.inl hk
        · exact Or.inr (Or.inr hk)

theorem insertInner_nodup (inner : List (String × HookResult)) (name : String)
    (r : HookResult) (h : (inner.map Prod.fst).Nodup) :
    ((insertInner inner name r).map Prod.fst).Nodup := by
  induction inner with
  | nil => simp [insertInner]
  | cons kv rest ih =>
    simp only [List.map_cons, List.nodup_cons] at h
    simp only [insertInner]
    split_ifs with heq
    · simp only [List.map_cons, List.nodup_cons]
      exact ⟨heq ▸ h.1, h.2⟩
    · simp only [List.map_cons, List.nodup_cons]
      refine ⟨fun hmem => ?_, ih h.2⟩
      rcases insertInner_keys rest name r kv.1 hmem with hk | hk
      · exact heq hk
      · exact h.1 hk

theorem insertOuter_keys (org : List (String × List (String × HookResult)))
    (path name : String) (r : HookResult) (k : String)
    (hk : k ∈ (insertOuter org path name r).map Prod.fst) :
    k = path ∨ k ∈ org.map Prod.fst := by
  induction org with
  | nil => simpa [insertOuter] using hk
  | cons kv rest ih =>
    simp only [insertOuter] at hk
    split_ifs at hk with h
    · simp only [List.map_cons, List.mem_cons] at hk ⊢
      tauto
    · simp only [List.map_cons, List.mem_cons] at hk ⊢
      rcases hk with hk | hk
      · exact Or.inr (Or.inl hk)
      · rcases ih hk with hk | hk
        · exact Or.inl hk
        · exact Or.inr (Or.inr hk)

theorem insertOuter_mem_self (org : List (String × List (String × HookResult)))
    (path name : String) (r : HookResult) :
    path ∈ (insertOuter org path name r).map Prod.fst := by
  induction org with
  | nil => simp [insertOuter]
  | cons kv rest ih =>
    simp only [insertOuter]
    split_ifs with h
    · simp
    · simp only [List.map_cons, List.mem_cons]
      exact Or.inr ih

theorem insertOuter_mem_mono (org : List (String × List (String × HookResult)))
    (path name : String) (r : HookResult) (k : String) (hk : k ∈ org.map Prod.fst) :
    k ∈ (insertOuter org path name r).map Prod.fst := by
  induction org with
  | nil => simp at hk
  | cons kv rest ih =>
    simp only [List.map_cons, List.mem_cons] at hk
    simp only [insertOuter]
    split_ifs with h
    · rcases hk with hk | hk
      · simp [h ▸ hk]
      · simp [hk]
    · simp only [List.map_cons, List.mem_cons]
      rcases hk with hk | hk
      · exact Or.inl hk
      · exact Or.inr (ih hk)

theorem insertOuter_wf (org : List (String × List (String × HookResult)))
    (path name : String) (r : HookResult) (h : OrgWellFormed org) :
    OrgWellFormed (insertOuter org path name r) := by
  obtain ⟨h1, h2⟩ := h
  constructor
  · induction org with
    | nil => simp [insertOuter]
    | cons kv rest ih =>
      simp only [List.map_cons, List.nodup_cons] at h1
      simp only [insertOuter]
      split_ifs with heq
      · simp only [List.map_cons, List.nodup_cons]
        exact ⟨heq ▸ h1.1, h1.2⟩
      · simp only [List.map_cons, List.nodup_cons]
        refine ⟨fun hmem => ?_, ?_⟩
        · rcases insertOuter_keys rest path name r kv.1 hmem with hk | hk
          · exact heq hk
          · exact h1.1 hk
        · exact ih h1.2 (fun p hp => h2 p (List.mem_cons_of_mem kv hp))
  · intro p hp
    induction org with
    | nil =>
      simp only [insertOuter, List.mem_singleton] at hp
      subst hp
      simp
    | cons kv rest ih =>
      simp only [insertOuter] at hp
      split_ifs at hp with heq
      · rcases List.mem_cons.mp hp with hp | hp
        · subst hp
          exact insertInner_nodup kv.2 name r (h2 kv (List.mem_cons_self kv rest))
        · exact h2 p (List.mem_cons_of_mem kv hp)
      · rcases List.mem_cons.mp hp with hp | hp
        · exact h2 p (hp ▸ List.mem_cons_self kv rest)
        · refine ih ?_ ?_ hp
          · simp only [List.map_cons, List.nodup_cons] at h1
            exact h1.2
          · intro q hq
            exact h2 q (List.mem_cons_of_mem kv hq)

theorem foldl_organize_wf (results : List (Except Unit HookResult))
    (org : List (String × List (String × HookResult))) (h : OrgWellFormed org) :
    OrgWellFormed (results.foldl organizeStep org) := by
  induction results generalizing org with
  | nil => exact h
  | cons res rest ih =>
    simp only [List.foldl_cons]
    cases res with
    | ok r => exact ih _ (insertOuter_wf org r.worktree_path r.column_name r h)
    | error e => exact ih _ h

theorem foldl_organize_mem_mono (results : List (Except Unit HookResult))
    (org : List (String × List (String × HookResult))) (k : String)
    (hk : k ∈ org.map Prod.fst) :
    k ∈ (results.foldl organizeStep org).map Prod.fst := by
  induction results generalizing org with
  | nil => exact hk
  | cons res rest ih =>
    simp only [List.foldl_cons]
    cases res with
    | ok r => exact ih _ (insertOuter_mem_mono org r.worktree_path r.column_name r k hk)
    | error e => exact ih _ hk

theorem foldl_organize_mem (results : List (Except Unit HookResult))
    (org : List (String × List (String × HookResult))) (r : HookResult)
    (hr : Except.ok r ∈ results) :
    r.worktree_path ∈ (results.foldl organizeStep org).map Prod.fst := by
  induction results generalizing org with
  | nil => simp at hr
  | cons res rest ih =>
    simp only [List.foldl_cons]
    rcases List.mem_cons.mp hr with hr | hr
    · subst hr
      exact foldl_organize_mem_mono rest _ r.worktree_path
        (insertOuter_mem_self org r.worktree_path r.column_name r)
    · exact ih _ hr

/-- C6: `run_all_hooks` returns a genuine two-level dict (at most one
entry per (worktree, probe-name) pair); an empty probe set or an empty
worktree set short-circuits to the empty mapping; and any (worktree,
probe) pair whose task resolves to a `HookResult` contributes its
worktree's path to the mapping — independent of every other pair's
outcome, so one probe's failure never removes other pairs' entries. -/
theorem c6_run_all_hooks_mapping :
    (∀ (worktrees : List Worktree) (timeout : Nat)
        (spawn : Worktree → ColumnHook → Except Unit ProcBehavior),
      run_all_hooks [] worktrees timeout spawn = []) ∧
    (∀ (hooks : List ColumnHook) (timeout : Nat)
        (spawn : Worktree → ColumnHook → Except Unit ProcBehavior),
      run_all_hooks hooks [] timeout spawn = []) ∧
    (∀ (hooks : List ColumnHook) (worktrees : List Worktree) (timeout : Nat)
        (spawn : Worktree → ColumnHook → Except Unit ProcBehavior),
      OrgWellFormed (run_all_hooks hooks worktrees timeout spawn)) ∧
    (∀ (hooks : List ColumnHook) (worktrees : List Worktree) (timeout : Nat)
        (spawn : Worktree → ColumnHook → Except Unit ProcBehavior)
        (wt : Worktree) (h : ColumnHook) (b : ProcBehavior),
      wt ∈ worktrees → h ∈ hooks → spawn wt h = .ok b →
      wt.path ∈ (run_all_hooks hooks worktrees timeout spawn).map Prod.fst) := by
  refine ⟨?_, ?_, ?_, ?_⟩
  · intro worktrees timeout spawn
    simp [run_all_hooks]
  · intro hooks timeout spawn
    simp [run_all_hooks]
  · intro hooks worktrees timeout spawn
    unfold run_all_hooks
    split_ifs with h
    · exact ⟨List.nodup_nil, by simp⟩
    · exact foldl_organize_wf _ [] ⟨List.nodup_nil, by simp⟩
  · intro hooks worktrees timeout spawn wt h b hwt hh hsp
    unfold run_all_hooks
    split_ifs with hemp
    · rcases Bool.or_eq_true_iff.mp hemp with he | he
      · exact absurd (List.isEmpty_iff.mp he) (List.ne_nil_of_mem hh)
      · exact absurd (List.isEmpty_iff.mp he) (List.ne_nil_of_mem hwt)
    · have hres : Except.ok ((run_hook h wt timeout b).1) ∈
          worktrees.flatMap fun w =>
            hooks.map fun hk => (spawn w hk).map fun pb => (run_hook hk w timeout pb).1 := by
        refine List.mem_flatMap.mpr ⟨wt, hwt, ?_⟩
        have : (spawn wt h).map (fun pb => (run_hook h wt timeout pb).1) =
            Except.ok ((run_hook h wt timeout b).1) := by
          rw [hsp]
          rfl
        exact this ▸ List.mem_map_of_mem _ hh
      have := foldl_organize_mem _ [] _ hres
      simpa [run_hook] using this

/-- Witness for C6 at a concrete one-probe, one-worktree batch. -/
theorem c6_run_all_hooks_mapping_witness :
    ("/w" : String) ∈
      (run_all_hooks [{ name := "CI", hook := "ci.sh", color_map := [] }]
        [{ path := "/w", branch := "b", is_bare := false }] 10
        (fun _ _ => .ok { duration := 1, outcome := .completed "pass" })).map
        Prod.fst := by
  have := c6_run_all_hooks_mapping.2.2.2
    [{ name := "CI", hook := "ci.sh", color_map := [] }]
    [{ path := "/w", branch := "b", is_bare := false }] 10
    (fun _ _ => .ok { duration := 1, outcome := .completed "pass" })
    { path := "/w", branch := "b", is_bare := false }
    { name := "CI", hook := "ci.sh", color_map := [] }
    { duration := 1, outcome := .completed "pass" }
    (by simp) (by simp) rfl
  simpa using this

/-! ## C7 -/

/-- C7: the per-unit failure protocol of the inline cleanup.  (1) Whatever
keystrokes were buffered during the operation, the outcome is the same as
with an empty buffer — the flush makes buffered keys unreadable at the
prompt.  (2) With no key arriving within the bounded wait the unit is
skipped and the operation is not re-run.  (3) Any arriving key other than
`"f"` skips the unit.  (4) The key `"f"` re-runs the operation exactly
once more, with the force flag, consuming exactly one keystroke, and the
report is that run's own success or failure — no further prompt.  (5) At
most one keystroke is ever consumed per unit.  (6) The prompt shows the
reason parsed from the captured log, falling back to the recorded error.
(7)-(9) The reason parse recognises exactly the three fatal-error
signatures, in that precedence order. -/
theorem c7_cleanup_retry_protocol :
    (∀ (runOp : Bool → CleanupResult) (b a : List String),
      (run_cleanup_unit runOp ⟨b, a⟩).report = (run_cleanup_unit runOp ⟨[], a⟩).report ∧
      (run_cleanup_unit runOp ⟨b, a⟩).forceCalls =
        (run_cleanup_unit runOp ⟨[], a⟩).forceCalls ∧
      (run_cleanup_unit runOp ⟨b, a⟩).promptReason =
        (run_cleanup_unit runOp ⟨[], a⟩).promptReason ∧
      (run_cleanup_unit runOp ⟨b, a⟩).keysRead =
        (run_cleanup_unit runOp ⟨[], a⟩).keysRead) ∧
    (∀ (runOp : Bool → CleanupResult) (b : List String), (runOp false).success = false →
      (run_cleanup_unit runOp ⟨b, []⟩).report = .skipped ∧
      (run_cleanup_unit runOp ⟨b, []⟩).forceCalls = [false]) ∧
    (∀ (runOp : Bool → CleanupResult) (b rest : List String) (k : String),
      (runOp false).success = false → k ≠ "f" →
      (run_cleanup_unit runOp ⟨b, k :: rest⟩).report = .skipped ∧
      (run_cleanup_unit runOp ⟨b, k :: rest⟩).forceCalls = [false]) ∧
    (∀ (runOp : Bool → CleanupResult) (b rest : List String),
      (runOp false).success = false →
      (run_cleanup_unit runOp ⟨b, "f" :: rest⟩).forceCalls = [false, true] ∧
      (run_cleanup_unit runOp ⟨b, "f" :: rest⟩).keysRead = 1 ∧
      (run_cleanup_unit runOp ⟨b, "f" :: rest⟩).report =
        (if (runOp true).success then .forceCleaned
         else .forceFailed (runOp true).error (pyStrip (runOp true).logs))) ∧
    (∀ (runOp : Bool → CleanupResult) (s : Stdin),
      (run_cleanup_unit runOp s).keysRead ≤ 1) ∧
    (∀ (runOp : Bool → CleanupResult) (s : Stdin), (runOp false).success = false →
      (run_cleanup_unit runOp s).promptReason =
        some (if extract_reason (pyStrip (runOp false).logs) = ""
              then (runOp false).error.getD "Unknown error"
              else extract_reason (pyStrip (runOp false).logs))) ∧
    (∀ logs : String, containsStr (stripAnsi logs) "modified or untracked files" = true →
      extract_reason logs = "has uncommitted changes") ∧
    (∀ logs : String, containsStr (stripAnsi logs) "modified or untracked files" = false →
      containsStr (stripAnsi logs) "is not a valid reference" = true →
      extract_reason logs = "branch reference invalid") ∧
    (∀ logs : String, containsStr (stripAnsi logs) "modified or untracked files" = false →
      containsStr (stripAnsi logs) "is not a valid reference" = false →
      containsStr (stripAnsi logs) "fatal:" = true →
      extract_reason logs =
        ((((stripAnsi logs).splitOn "\n").find?
            (fun line => containsStr line "fatal:")).map pyStrip).getD "") := by
  refine ⟨?_, ?_, ?_, ?_, ?_, ?_, ?_, ?_, ?_⟩
  · intro runOp b a
    cases hs : (runOp false).success <;>
      cases a <;>
      simp [run_cleanup_unit, flush_stdin, get_key_with_timeout, hs]
  · intro runOp b hs
    simp [run_cleanup_unit, flush_stdin, get_key_with_timeout, hs]
  · intro runOp b rest k hs hk
    simp [run_cleanup_unit, flush_stdin, get_key_with_timeout, hs, hk]
  · intro runOp b rest hs
    simp only [run_cleanup_unit, flush_stdin, get_key_with_timeout, hs]
    refine ⟨?_, ?_, ?_⟩ <;>
      simp <;>
      split_ifs <;>
      simp
  · intro runOp s
    obtain ⟨b, a⟩ := s
    cases hs : (runOp false).success <;>
      cases a <;>
      simp [run_cleanup_unit, flush_stdin, get_key_with_timeout, hs] <;>
      split_ifs <;>
      simp
  · intro runOp s hs
    obtain ⟨b, a⟩ := s
    cases a <;>
      simp [run_cleanup_unit, flush_stdin, get_key_with_timeout, hs] <;>
      split_ifs <;>
      simp
  · intro logs h1
    simp [extract_reason, h1]
  · intro logs h1 h2
    simp [extract_reason, h1, h2]
  · intro logs h1 h2 h3
    simp [extract_reason, h1, h2, h3]

/-- Witness for C7: a concrete failing cleanup with a buffered stray key
and an arriving force key. -/
theorem c7_cleanup_retry_protocol_witness :
    (run_cleanup_unit
        (fun force =>
          if force then { success := true, error := none, logs := "" }
          else { success := false, error := some "boom",
                 logs := "error: modified or untracked files" })
        ⟨["x"], ["f"]⟩).forceCalls = [false, true] :=
  (c7_cleanup_retry_protocol.2.2.2.1
    (fun force =>
      if force then { success := true, error := none, logs := "" }
      else { success := false, error := some "boom",
             logs := "error: modified or untracked files" })
    ["x"] [] rfl).1

/-! ## C8 -/

/-- C8 counterexample: a direct jump to the mode that is already active is
a no-op — `_switch_mode` only resets anything when the target differs from
the current mode.  From worktrees mode with cursor 3, selection `{1}`,
viewport start 2 and a fresh snapshot, pressing the worktrees-mode jump
key changes nothing, so the claim's "every mode switch ... regardless of
prior state, resets ..." is false at this input. -/
theorem c8_same_mode_jump_is_noop :
    (switch_mode { cursor := 3, selected := [1], viewport_start := 2,
                   needs_refresh := false, mode := .WORKTREES }
        TUIMode.WORKTREES).cursor = 3 ∧
    (switch_mode { cursor := 3, selected := [1], viewport_start := 2,
                   needs_refresh := false, mode := .WORKTREES }
        TUIMode.WORKTREES).selected = [1] ∧
    (switch_mode { cursor := 3, selected := [1], viewport_start := 2,
                   needs_refresh := false, mode := .WORKTREES }
        TUIMode.WORKTREES).viewport_start = 2 ∧
    (switch_mode { cursor := 3, selected := [1], viewport_start := 2,
                   needs_refresh := false, mode := .WORKTREES }
        TUIMode.WORKTREES).needs_refresh = false := by
  refine ⟨?_, ?_, ?_, ?_⟩ <;> decide

/-- The successor of each mode in the fixed cycle. -/
def nextMode : TUIMode → TUIMode
  | .WORKTREES => .TICKETS_MINE
  | .TICKETS_MINE => .TICKETS_REVIEW
  | .TICKETS_REVIEW => .TICKETS_ALL
  | .TICKETS_ALL => .PRS
  | .PRS => .WORKTREES

theorem modeCycle_next (m : TUIMode) :
    modeCycle.getD ((modeCycle.findIdx (fun x => x == m) + 1) % modeCycle.length)
      .WORKTREES = nextMode m := by
  cases m <;> rfl

theorem cycle_mode_target (s : TUIState) :
    cycle_mode s = switch_mode s (nextMode s.mode) := by
  unfold cycle_mode
  dsimp only
  rw [modeCycle_next]

/-- C8 as amended: every mode switch **to a different mode** — and every
tab-cycle, whose target always differs from the current mode — resets the
cursor to 0, resets the viewport start to 0, clears the selection set and
sets the staleness flag; a direct jump to the already-active mode is a
no-op. -/
theorem c8_mode_switch_resets (s : TUIState) :
    (∀ m : TUIMode, m ≠ s.mode →
      (switch_mode s m).cursor = 0 ∧ (switch_mode s m).viewport_start = 0 ∧
      (switch_mode s m).selected = [] ∧ (switch_mode s m).needs_refresh = true ∧
      (switch_mode s m).mode = m) ∧
    ((cycle_mode s).cursor = 0 ∧ (cycle_mode s).viewport_start = 0 ∧
      (cycle_mode s).selected = [] ∧ (cycle_mode s).needs_refresh = true ∧
      (cycle_mode s).mode ≠ s.mode) := by
  constructor
  · intro m hm
    simp [switch_mode, hm]
  · rw [cycle_mode_target]
    cases hm : s.mode <;> simp [nextMode, switch_mode, hm]

/-- Witness for C8 at a concrete state and target mode. -/
theorem c8_mode_switch_resets_witness :
    (switch_mode { cursor := 3, selected := [1], viewport_start := 2,
                   needs_refresh := false, mode := .WORKTREES }
        TUIMode.PRS).cursor = 0 :=
  ((c8_mode_switch_resets
      { cursor := 3, selected := [1], viewport_start := 2,
        needs_refresh := false, mode := .WORKTREES }).1
    TUIMode.PRS (by decide)).1

/-! ## C9 -/

theorem mapM_getElem_eq_map_getD (l : List WorktreeInfo) (idxs : List Nat)
    (h : ∀ i ∈ idxs, i < l.length) :
    (idxs.mapM fun i => l[i]?) =
      some (idxs.map fun i => l.getD i defaultWorktreeInfo) := by
  induction idxs with
  | nil => rfl
  | cons i rest ih =>
    have hi := h i (List.mem_cons_self i rest)
    have hrest := fun j hj => h j (List.mem_cons_of_mem i hj)
    rw [List.mapM_cons, List.getElem?_eq_getElem hi, ih hrest]
    simp [List.getD_eq_getElem?_getD, List.getElem?_eq_getElem hi]

/-- C9: with an empty selection set, `get_selected_worktrees` returns
exactly the worktree under the cursor, or nothing when the cursor is out
of range; with a non-empty selection set of in-range indices it returns
the selected worktrees ordered by ascending index, and the result is
invariant under permuting the selection set — the order of selection never
matters. -/
theorem c9_get_selected_worktrees_spec :
    (∀ st : TUIState, st.selected = [] → ∀ h : st.cursor < st.worktrees.length,
      get_selected_worktrees st = some [st.worktrees.get ⟨st.cursor, h⟩]) ∧
    (∀ st : TUIState, st.selected = [] → st.worktrees.length ≤ st.cursor →
      get_selected_worktrees st = some []) ∧
    (∀ st : TUIState, st.selected ≠ [] → (∀ i ∈ st.selected, i < st.worktrees.length) →
      ∃ idxs : List Nat, List.Sorted (· ≤ ·) idxs ∧ idxs.Perm st.selected ∧
        get_selected_worktrees st =
          some (idxs.map fun i => st.worktrees.getD i defaultWorktreeInfo)) ∧
    (∀ (st : TUIState) (sel : List Nat), sel.Perm st.selected →
      get_selected_worktrees { st with selected := sel } =
        get_selected_worktrees st) := by
  refine ⟨?_, ?_, ?_, ?_⟩
  · intro st hsel h
    unfold get_selected_worktrees
    rw [if_pos hsel, dif_pos h]
  · intro st hsel h
    unfold get_selected_worktrees
    rw [if_pos hsel, dif_neg (by omega)]
  · intro st hsel hvalid
    refine ⟨st.selected.insertionSort (· ≤ ·),
      List.sorted_insertionSort (· ≤ ·) st.selected,
      List.perm_insertionSort (· ≤ ·) st.selected, ?_⟩
    unfold get_selected_worktrees
    rw [if_neg hsel]
    exact mapM_getElem_eq_map_getD st.worktrees _
      (fun i hi =>
        hvalid i ((List.perm_insertionSort (· ≤ ·) st.selected).mem_iff.mp hi))
  · intro st sel hperm
    by_cases hsel : st.selected = []
    · have hsel2 : sel = [] := by
        rw [hsel] at hperm
        exact hperm.eq_nil
      unfold get_selected_worktrees
      rw [hsel, hsel2]
    · have hsel2 : sel ≠ [] := by
        intro hc
        rw [hc] at hperm
        exact hsel (hperm.symm.eq_nil)
      have hsorteq : sel.insertionSort (· ≤ ·) = st.selected.insertionSort (· ≤ ·) :=
        List.eq_of_perm_of_sorted
          ((List.perm_insertionSort (· ≤ ·) sel).trans
            (hperm.trans (List.perm_insertionSort (· ≤ ·) st.selected).symm))
          (List.sorted_insertionSort (· ≤ ·) sel)
          (List.sorted_insertionSort (· ≤ ·) st.selected)
      unfold get_selected_worktrees
      rw [if_neg hsel2, if_neg hsel]
      dsimp only
      rw [hsorteq]

/-- Witness for C9 at concrete states: empty selection with cursor in
range, and a two-element out-of-order selection. -/
theorem c9_get_selected_worktrees_spec_witness :
    get_selected_worktrees
        { selected := [], cursor := 0, worktrees := [defaultWorktreeInfo] } =
      some [defaultWorktreeInfo] ∧
    get_selected_worktrees
        { selected := [1, 0], cursor := 0,
          worktrees := [defaultWorktreeInfo, defaultWorktreeInfo] } =
      get_selected_worktrees
        { selected := [0, 1], cursor := 0,
          worktrees := [defaultWorktreeInfo, defaultWorktreeInfo] } := by
  constructor
  · exact c9_get_selected_worktrees_spec.1
      { selected := [], cursor := 0, worktrees := [defaultWorktreeInfo] } rfl
      (by decide)
  · exact c9_get_selected_worktrees_spec.2.2.2
      { selected := [0, 1], cursor := 0,
        worktrees := [defaultWorktreeInfo, defaultWorktreeInfo] } [1, 0]
      (by decide)

/-! ## C10 -/

/-- C10: a cleanup run is recorded successful exactly when the operation
returned normally and the worktree directory is gone afterwards; a
normally-returning operation that leaves the directory in place is
recorded as a failure with the error "Worktree still exists after
cleanup"; a raising operation is recorded as a failure carrying the
exception's message and the captured logs. -/
theorem c10_cleanup_success_iff_removed :
    (∀ (outcome : Except String Unit) (logs : String) (ex : Bool),
      ((run_cleanup_in_thread outcome logs ex).success = true ↔
        outcome = .ok () ∧ ex = false)) ∧
    (∀ logs : String,
      run_cleanup_in_thread (.ok ()) logs true =
        { success := false, error := some "Worktree still exists after cleanup",
          logs := logs }) ∧
    (∀ (e : String) (logs : String) (ex : Bool),
      run_cleanup_in_thread (.error e) logs ex =
        { success := false, error := some e, logs := logs }) := by
  refine ⟨?_, ?_, ?_⟩
  · intro outcome logs ex
    cases outcome with
    | ok u =>
      cases u
      cases ex <;> simp [run_cleanup_in_thread]
    | error e =>
      cases ex <;> simp [run_cleanup_in_thread]
  · intro logs
    rfl
  · intro e logs ex
    rfl

/-- Witness for C10: a clean run whose directory is gone is a success. -/
theorem c10_cleanup_success_iff_removed_witness :
    (run_cleanup_in_thread (.ok ()) "removed" false).success = true :=
  (c10_cleanup_success_iff_removed.1 (.ok ()) "removed" false).mpr ⟨rfl, rfl⟩
